import Mathlib

/-!
Verification development for the `csp-data-workshop` Keeling-curve pipeline.

The Python sources under `demo/` are shallowly embedded below:

* `fetch_data.download_data`  — HTTP fetch with a `try/except` around the
  request (`download_data` here);
* `clean_data.load_and_clean` — column renaming, type coercion, row dropping,
  date synthesis and sorting (`load_and_clean` here);
* `analyze.calculate_growth_rate` — per-year means, first/second differences
  and 5-wide centered rolling means (`calculate_growth_rate` here);
* `run_pipeline`              — the driver's `from … import …` lines
  (`resolveImports` here).

Machine floats are modelled as exact rationals (`ℚ`); no claim under study
depends on rounding.  Pandas cells are modelled by `Cell`: `na` (NaN),
`num q`, or `txt s` for a non-numeric string.  Python exceptions are
modelled by the `PyExc` error type of an `Except` result.
-/

set_option maxRecDepth 4000

/-- Python `str.lower()` (character-wise, over the string's characters). -/
def toLowerStr (s : String) : String :=
  String.mk (s.data.map Char.toLower)

/-- Python `str.strip()` / pandas `str.strip()`: drop leading and trailing
whitespace. -/
def trimStr (s : String) : String :=
  String.mk (((s.data.dropWhile Char.isWhitespace).reverse.dropWhile
    Char.isWhitespace).reverse)

/-- A pandas cell: missing (NaN), numeric, or non-numeric text. -/
inductive Cell where
  | na : Cell
  | num (q : ℚ) : Cell
  | txt (s : String) : Cell
  deriving DecidableEq

/-- True for a numeric cell; `dropna`/`notna` on a coerced column tests this. -/
def Cell.isNum : Cell → Bool
  | .num _ => true
  | _ => false

/-- Python exceptions reachable in the embedded code, plus the two
exception classes named by the spec's error taxonomy.  `networkError` and
`schemaError` are modelled from the spec: no class of either name exists
anywhere in the repository's code, and no embedded operation ever
produces them; they are present only so that the spec's claims about them
can be stated and compared against what the code actually raises. -/
inductive PyExc where
  | keyError (key : String) : PyExc
  | valueError (msg : String) : PyExc
  | pyImportError (name : String) : PyExc
  | networkError : PyExc
  | schemaError : PyExc
  deriving DecidableEq

instance {ε α : Type} [DecidableEq ε] [DecidableEq α] :
    DecidableEq (Except ε α) := fun a b =>
  match a, b with
  | .ok x, .ok y => if h : x = y then isTrue (by rw [h]) else isFalse (by simp [h])
  | .error e, .error f =>
    if h : e = f then isTrue (by rw [h]) else isFalse (by simp [h])
  | .ok _, .error _ => isFalse (by simp)
  | .error _, .ok _ => isFalse (by simp)

/-! ### Fetcher (`fetch_data.py`) -/

/-- Outcome of `requests.get(url, timeout=30)`: either the transport layer
raises a `requests.exceptions.RequestException`, or a response with an HTTP
status code and a text body comes back. -/
inductive HttpResult where
  | transportError (msg : String) : HttpResult
  | response (status : Nat) (body : String) : HttpResult
  deriving DecidableEq

/-- `response.raise_for_status()` raises `requests.exceptions.HTTPError`
exactly for 4xx and 5xx status codes. -/
def raiseForStatusFails (status : Nat) : Bool :=
  decide (400 ≤ status) && decide (status < 600)

/-- A fetch attempt that `fetch_data.py` treats as failed: the transport
errored or `raise_for_status` raises. -/
def fetchFails (h : HttpResult) : Bool :=
  match h with
  | .transportError _ => true
  | .response s _ => raiseForStatusFails s

/-- Embeds `fetch_data.download_data(url, output_path)`.  The state is the
destination file's content (`none` when the file does not exist).  The
source wraps the request, the `raise_for_status` call and the file write in
`try: … except requests.exceptions.RequestException as e:` whose handler
only prints a message — so every failed transfer is caught and the function
returns normally, and the destination is written only after a successful
`raise_for_status`. -/
def download_data (h : HttpResult) (dest : Option String) :
    Option String × Except PyExc Unit :=
  match h with
  | .transportError _ => (dest, Except.ok ())
  | .response s body =>
    if raiseForStatusFails s then (dest, Except.ok ())
    else (some body, Except.ok ())

/-! ### Driver (`run_pipeline.py`) -/

/-- Top-level names defined by module `fetch_data`. -/
def fetchDataDefs : List String :=
  ["requests", "os", "MONTHLY_URL", "MONTHLY_FILE", "HISTORICAL_URL",
   "HISTORICAL_FILE", "download_data"]

/-- Top-level names defined by module `clean_data`. -/
def cleanDataDefs : List String :=
  ["pd", "INPUT_FILE", "OUTPUT_FILE", "load_and_clean"]

/-- Top-level names defined by module `analyze`.  Note: the module defines
`main`, not a function called `analyze`. -/
def analyzeDefs : List String :=
  ["pd", "np", "stats", "signal", "seasonal_decompose", "warnings",
   "INPUT_FILE", "OUTPUT_PREFIX", "calculate_growth_rate",
   "perform_seasonal_decomposition", "calculate_decadal_statistics",
   "analyze_residuals", "main"]

/-- Top-level names defined by module `visualize`.  Note: there is no
`plot_full_curve` and no `plot_decade_comparison`. -/
def visualizeDefs : List String :=
  ["pd", "np", "plt", "mdates", "GridSpec", "warnings",
   "CLEAN_FILE", "DECOMP_FILE", "GROWTH_FILE", "HISTORICAL_FILE",
   "plot_overview", "plot_decomposition", "plot_growth_and_acceleration",
   "plot_historical_context", "plot_seasonal_cycle", "main"]

/-- Name lookup table for the modules `run_pipeline.py` imports from. -/
def moduleDefs (m : String) : List String :=
  if m = "fetch_data" then fetchDataDefs
  else if m = "clean_data" then cleanDataDefs
  else if m = "analyze" then analyzeDefs
  else if m = "visualize" then visualizeDefs
  else []

/-- The `from module import name` pairs at the top of `run_pipeline.py`,
in source order. -/
def runPipelineImports : List (String × String) :=
  [("fetch_data", "download_data"),
   ("clean_data", "load_and_clean"),
   ("analyze", "analyze"),
   ("visualize", "plot_full_curve"),
   ("visualize", "plot_seasonal_cycle"),
   ("visualize", "plot_decade_comparison")]

/-- Resolves a list of `from m import n` statements in order; the first name
absent from its module raises `ImportError` and nothing further (in
particular no stage of `main`) runs. -/
def resolveImports : List (String × String) → Except PyExc Unit
  | [] => Except.ok ()
  | (m, n) :: rest =>
    if (moduleDefs m).contains n then resolveImports rest
    else Except.error (PyExc.pyImportError n)

/-! ### Cleaner (`clean_data.py`) -/

/-- Python `int()` / pandas `astype(int)` on a finite float truncates toward
zero. -/
def truncInt (q : ℚ) : ℤ :=
  if 0 ≤ q then ⌊q⌋ else ⌈q⌉

/-- Substring containment test over character lists (Python `pat in s`),
helper: does the first list start with the second? -/
def listStartsWith : List Char → List Char → Bool
  | _, [] => true
  | [], _ :: _ => false
  | a :: as, b :: bs => a = b && listStartsWith as bs

/-- Substring containment over character lists. -/
def containsSub (p : List Char) : List Char → Bool
  | [] => listStartsWith [] p
  | c :: rest => listStartsWith (c :: rest) p || containsSub p rest

/-- Python's substring test `pat in s` on strings. -/
def strContains (s pat : String) : Bool :=
  containsSub pat.toList s.toList

/-- Embeds the `col_map` loop of `load_and_clean`: for a (already stripped)
raw column name, the canonical name it is renamed to, or `none` when no
rule matches.  Source order of the `if/elif` chain is kept: exact matches
(after `lower().strip()`) against `yr`/`year`, then `mn`/`month`, then
`co2`, then the substring test `"seasonally" in col_lower`, then the exact
match `fit`. -/
def mapColName (col : String) : Option String :=
  let l := trimStr (toLowerStr col)
  if l = "yr" || l = "year" then some "year"
  else if l = "mn" || l = "month" then some "month"
  else if l = "co2" then some "co2"
  else if strContains l "seasonally" then some "co2_adjusted"
  else if l = "fit" then some "co2_fit"
  else none

/-- Modelled from the spec: the spec (§4.2) says column identification is
"case-insensitive substring matching against a fixed small vocabulary
(yr/year→year, mn/month→month, co2→co2, seasonally→co2_adjusted,
fit→co2_fit)" with first-matching-keyword-wins.  This definition follows
those words; it exists to be compared with `mapColName`, which embeds the
code. -/
def specColMatch (col : String) : Option String :=
  let l := toLowerStr col
  if strContains l "yr" || strContains l "year" then some "year"
  else if strContains l "mn" || strContains l "month" then some "month"
  else if strContains l "co2" then some "co2"
  else if strContains l "seasonally" then some "co2_adjusted"
  else if strContains l "fit" then some "co2_fit"
  else none

/-- A raw CSV table as produced by `pd.read_csv` on the fetched file:
header names and rows of cells.  Comment-line skipping happens during
parsing and is not modelled; `na_values=["-99.99", -99.99]` is applied by
`naValue` below. -/
structure RawTable where
  headers : List String
  rows : List (List Cell)
  deriving DecidableEq

/-- The `na_values=["-99.99", -99.99]` option of the `read_csv` call: the
sentinel, as a float or as literal text, parses as NaN. -/
def naValue (c : Cell) : Cell :=
  match c with
  | .num q => if q = -9999 / 100 then Cell.na else Cell.num q
  | .txt s => if s = "-99.99" then Cell.na else Cell.txt s
  | .na => Cell.na

/-- `pd.to_numeric(column, errors="coerce")` on a parsed cell: numbers stay,
NaN stays, non-numeric text coerces to NaN. -/
def toNumeric (c : Cell) : Cell :=
  match c with
  | .num q => Cell.num q
  | _ => Cell.na

/-- Headers after `df.columns.str.strip()` and `df.rename(columns=col_map)`:
matched names become canonical, unmatched names stay as stripped. -/
def renamedHeaders (t : RawTable) : List String :=
  (t.headers.map trimStr).map (fun h => (mapColName h).getD h)

/-- The canonical column vocabulary, in the order of the `keep_cols` list. -/
def canonicalCols : List String :=
  ["year", "month", "co2", "co2_adjusted", "co2_fit"]

/-- The `keep_cols` computation: canonical names present among the renamed
headers, in canonical order; `df = df[keep_cols]` keeps exactly these. -/
def keptHeaders (t : RawTable) : List String :=
  canonicalCols.filter (fun c => (renamedHeaders t).contains c)

/-- Column access `df[name]` for one row: the cell under the first header
equal to `name` (raw pandas headers are unique after read_csv's name
mangling, so first-match lookup is faithful; `read_csv` tables are
rectangular, so pairing headers with the row's cells positionally is the
column lookup), `na` when the column is absent. -/
def getCell (headers : List String) (row : List Cell) (name : String) : Cell :=
  match (headers.zip row).find? (fun hc => hc.1 = name) with
  | some hc => hc.2
  | none => Cell.na

/-- One row after column selection and the three `to_numeric(…,
errors="coerce")` coercions of `year`, `month` and `co2`;
`co2_adjusted`/`co2_fit` keep their parsed cells. -/
structure PreRec where
  year : Cell
  month : Cell
  co2 : Cell
  co2_adjusted : Cell
  co2_fit : Cell
  deriving DecidableEq

/-- Builds the `PreRec` of one raw row against the renamed headers. -/
def mkPreRec (headers : List String) (row : List Cell) : PreRec :=
  { year := toNumeric (getCell headers row "year")
    month := toNumeric (getCell headers row "month")
    co2 := toNumeric (getCell headers row "co2")
    co2_adjusted := getCell headers row "co2_adjusted"
    co2_fit := getCell headers row "co2_fit" }

/-- The coerced row of a raw row of `t` (na_values applied, columns renamed
and selected, key columns coerced). -/
def preOf (t : RawTable) (row : List Cell) : PreRec :=
  mkPreRec (renamedHeaders t) (row.map naValue)

/-- The rows surviving `df.dropna(subset=["year", "co2"])`: only `year` and
`co2` are checked; a missing month does not drop a row. -/
def keptRows (t : RawTable) : List PreRec :=
  (t.rows.map (preOf t)).filter (fun p => p.year.isNum && p.co2.isNum)

/-- A clean record: the synthesised date (linearised as
`year*12 + (month-1)`, order-isomorphic to the calendar month), the float
`year`/`month`/`co2` columns, and the optional columns' cells. -/
structure CleanRec where
  date : ℤ
  year : ℚ
  month : ℚ
  co2 : ℚ
  co2_adjusted : Cell
  co2_fit : Cell
  deriving DecidableEq

/-- Date synthesis for one surviving row:
`pd.to_datetime(year.astype(int).astype(str) + "-" + month.astype(int).astype(str) + "-01")`.
`astype(int)` truncates; `to_datetime` raises `ValueError` when the month
number is not a calendar month.  (Pandas additionally bounds the
representable year range; no claim depends on that and it is not
modelled.)  The `month = na` case is unreachable here because
`load_and_clean` checks the whole month column first, mirroring the fact
that the column-wide `astype(int)` runs before `to_datetime`. -/
def mkCleanRec (p : PreRec) : Except PyExc CleanRec :=
  match p.year, p.month, p.co2 with
  | .num y, .num m, .num c =>
    let yi := truncInt y
    let mi := truncInt m
    if 1 ≤ mi ∧ mi ≤ 12 then
      Except.ok { date := yi * 12 + (mi - 1), year := y, month := m, co2 := c,
                  co2_adjusted := p.co2_adjusted, co2_fit := p.co2_fit }
    else Except.error (PyExc.valueError "to_datetime: month out of range")
  | _, _, _ => Except.error (PyExc.valueError "astype: non-finite")

/-- Date synthesis over the surviving rows, first failure aborting. -/
def mkCleanRecs : List PreRec → Except PyExc (List CleanRec)
  | [] => Except.ok []
  | p :: ps =>
    match mkCleanRec p, mkCleanRecs ps with
    | Except.ok r, Except.ok rs => Except.ok (r :: rs)
    | Except.error e, _ => Except.error e
    | _, Except.error e => Except.error e

/-- Embeds `clean_data.load_and_clean`.  In source order: strip and rename
headers, select `keep_cols`, coerce `year`/`month`/`co2` — accessing a
missing one of these three raises `KeyError` (there is no `SchemaError`
anywhere in the code) — drop rows with missing `year`/`co2`, synthesise the
date column (the column-wide `month.astype(int)` raises on any NaN month),
and sort by date. -/
def load_and_clean (t : RawTable) : Except PyExc (List CleanRec) :=
  let hdrs := renamedHeaders t
  if hdrs.contains "year" = false then Except.error (PyExc.keyError "year")
  else if hdrs.contains "month" = false then Except.error (PyExc.keyError "month")
  else if hdrs.contains "co2" = false then Except.error (PyExc.keyError "co2")
  else if (keptRows t).all (fun p => p.month.isNum) = false then
    Except.error (PyExc.valueError "astype: cannot convert NaN to integer")
  else
    match mkCleanRecs (keptRows t) with
    | Except.error e => Except.error e
    | Except.ok recs =>
      Except.ok (List.insertionSort (fun a b => a.date ≤ b.date) recs)

/-- The truncated (year, month) key of a surviving row, when both are
numeric; the keys of a raw table are its identity for duplicate detection. -/
def rowKey (p : PreRec) : Option (ℤ × ℤ) :=
  match p.year, p.month with
  | .num y, .num m => some (truncInt y, truncInt m)
  | _, _ => none

/-- The (year, month) keys of all rows surviving the drop step. -/
def cleanKeys (t : RawTable) : List (ℤ × ℤ) :=
  (keptRows t).filterMap rowKey

/-! ### Analyzer (`analyze.py`, `calculate_growth_rate`) -/

/-- The distinct years of the monthly records, ascending — the group keys
of `df.groupby("year")` (pandas sorts group keys). -/
def sortedYears (rows : List (ℤ × ℚ)) : List ℤ :=
  List.insertionSort (fun a b => a ≤ b) (rows.map Prod.fst).dedup

/-- The mean of `co2` over the records of year `y`
(`df.groupby("year")["co2"].mean()` for key `y`). -/
def yearMean (rows : List (ℤ × ℚ)) (y : ℤ) : ℚ :=
  let g := (rows.filter (fun p => p.1 = y)).map Prod.snd
  g.sum / g.length

/-- The annual table `annual[["year","co2"]]`: one (year, mean co2) pair per
distinct year, ascending. -/
def annualTable (rows : List (ℤ × ℚ)) : List (ℤ × ℚ) :=
  (sortedYears rows).map (fun y => (y, yearMean rows y))

/-- `Series.diff()`: NaN at position 0, else the difference with the
previous position. -/
def diffSeries (xs : List ℚ) : List (Option ℚ) :=
  (List.range xs.length).map (fun i =>
    if i = 0 then none else some (xs.getD i 0 - xs.getD (i - 1) 0))

/-- `Series.diff()` on a column that already contains NaN: the result is
NaN wherever either operand is. -/
def diffSeriesO (xs : List (Option ℚ)) : List (Option ℚ) :=
  (List.range xs.length).map (fun i =>
    if i = 0 then none
    else
      match xs.getD (i - 1) none, xs.getD i none with
      | some a, some b => some (b - a)
      | _, _ => none)

/-- `Series.rolling(5, center=True).mean()`: with the default
`min_periods = 5`, position `i` is defined exactly when the centered
window `i-2 … i+2` lies inside the series and holds five non-NaN values,
and is then their mean. -/
def rollingMean5 (xs : List (Option ℚ)) : List (Option ℚ) :=
  (List.range xs.length).map (fun i =>
    if 2 ≤ i ∧ i + 2 < xs.length then
      match xs.getD (i - 2) none, xs.getD (i - 1) none, xs.getD i none,
          xs.getD (i + 1) none, xs.getD (i + 2) none with
      | some a, some b, some c, some d, some e =>
        some ((a + b + c + d + e) / 5)
      | _, _, _, _, _ => none
    else none)

/-- One row of the annual DataFrame returned by `calculate_growth_rate`. -/
structure AnnualRow where
  year : ℤ
  co2 : ℚ
  growth_rate : Option ℚ
  acceleration : Option ℚ
  growth_rate_smooth : Option ℚ
  acceleration_smooth : Option ℚ
  deriving DecidableEq

/-- The `growth_rate` column: `annual["co2"].diff()`. -/
def grList (rows : List (ℤ × ℚ)) : List (Option ℚ) :=
  diffSeries ((annualTable rows).map Prod.snd)

/-- The `acceleration` column: `annual["growth_rate"].diff()`. -/
def accList (rows : List (ℤ × ℚ)) : List (Option ℚ) :=
  diffSeriesO (grList rows)

/-- The `growth_rate_smooth` column. -/
def grSmoothList (rows : List (ℤ × ℚ)) : List (Option ℚ) :=
  rollingMean5 (grList rows)

/-- The `acceleration_smooth` column. -/
def accSmoothList (rows : List (ℤ × ℚ)) : List (Option ℚ) :=
  rollingMean5 (accList rows)

/-- Embeds `analyze.calculate_growth_rate`.  Input: the monthly clean
records' (year, co2) columns.  Output: the annual DataFrame with per-year
mean co2, its first difference (growth rate), second difference
(acceleration), and 5-wide centered rolling means of both. -/
def calculate_growth_rate (rows : List (ℤ × ℚ)) : List AnnualRow :=
  (List.range (annualTable rows).length).map (fun i =>
    { year := ((annualTable rows).getD i (0, 0)).1
      co2 := ((annualTable rows).getD i (0, 0)).2
      growth_rate := (grList rows).getD i none
      acceleration := (accList rows).getD i none
      growth_rate_smooth := (grSmoothList rows).getD i none
      acceleration_smooth := (accSmoothList rows).getD i none })

/-- Modelled from the spec: "Annual growth rate for year Y equals
mean(co2 | year=Y) − mean(co2 | year=Y−1); undefined for the first year."
The two conditional means exist only for years with records, so the
spec-side growth rate of year `Y` is defined exactly when both `Y` and
`Y−1` have records. -/
def specGrowthRate (rows : List (ℤ × ℚ)) (y : ℤ) : Option ℚ :=
  if (rows.map Prod.fst).contains y ∧ (rows.map Prod.fst).contains (y - 1) then
    some (yearMean rows y - yearMean rows (y - 1))
  else none

theorem trimStr_Yr : trimStr "Yr" = "Yr" := by with_unfolding_all decide

theorem trimStr_Mn : trimStr "Mn" = "Mn" := by with_unfolding_all decide

theorem trimStr_CO2 : trimStr "CO2" = "CO2" := by with_unfolding_all decide

theorem mapColName_Yr : mapColName "Yr" = some "year" := by
  with_unfolding_all decide

theorem mapColName_Mn : mapColName "Mn" = some "month" := by
  with_unfolding_all decide

theorem mapColName_CO2 : mapColName "CO2" = some "co2" := by
  with_unfolding_all decide

def exScenario : RawTable :=
  { headers := ["Yr", "Mn", "CO2"]
    rows := [[Cell.num 1959, Cell.num 1, Cell.num (31562 / 100)],
             [Cell.num 1959, Cell.num 2, Cell.num (-9999 / 100)],
             [Cell.num 1959, Cell.num 3, Cell.num (3173 / 10)]] }

def exMonthly : List (ℤ × ℚ) := [(1960, 316), (1961, 317), (1962, 319)]

/-- Sanity check of the spec's growth-rate scenario: annual means
{1960: 316, 1961: 317, 1962: 319} yield growth rates {1961: 1, 1962: 2}
and acceleration {1962: 1}, with all smoothed entries NaN (fewer than five
defined window values exist anywhere). -/
theorem calculate_growth_rate_scenario : calculate_growth_rate exMonthly =
    [{ year := 1960, co2 := 316, growth_rate := none, acceleration := none,
       growth_rate_smooth := none, acceleration_smooth := none },
     { year := 1961, co2 := 317, growth_rate := some 1, acceleration := none,
       growth_rate_smooth := none, acceleration_smooth := none },
     { year := 1962, co2 := 319, growth_rate := some 2,
       acceleration := some 1, growth_rate_smooth := none,
       acceleration_smooth := none }] := by with_unfolding_all decide

/-! ### Claim C1 — fetch failures and `NetworkError` -/

/-- C1, counterexample: at a concrete failing fetch (transport error against
an unreachable URL, no pre-existing destination file), `download_data` does
not raise a `NetworkError` — the claim says every failing transfer raises
one — and in fact returns normally with the destination untouched. -/
theorem download_data_no_networkError :
    (download_data (HttpResult.transportError "connection refused") none).2
      ≠ Except.error PyExc.networkError ∧
    download_data (HttpResult.transportError "connection refused") none
      = (none, Except.ok ()) := by
  decide

/-- C1, amended: for every fetch whose transfer errors or whose status makes
`raise_for_status` raise, `download_data` catches the
`requests.exceptions.RequestException`, prints a message, and returns
normally — no exception (and in particular no `NetworkError`, a class that
does not exist in the code) propagates, and the destination file is left
unchanged, so the pipeline is not halted. -/
theorem download_data_failure_returns_normally (h : HttpResult)
    (dest : Option String) (hf : fetchFails h = true) :
    download_data h dest = (dest, Except.ok ()) := by
  cases h with
  | transportError msg => rfl
  | response s body =>
    simp only [fetchFails] at hf
    simp [download_data, hf]

/-- C1, witness: the amended theorem applied to a concrete failing fetch
(HTTP 500 with a pre-existing destination file). -/
theorem download_data_failure_returns_normally_witness :
    fetchFails (HttpResult.response 500 "oops") = true ∧
    download_data (HttpResult.response 500 "oops") (some "old data")
      = (some "old data", Except.ok ()) :=
  ⟨by decide,
    download_data_failure_returns_normally (HttpResult.response 500 "oops")
      (some "old data") (by decide)⟩

/-! ### Claim C9 — failed fetches never write the destination -/

/-- C9: for every fetch invocation that fails (transport error, or a status
that makes `raise_for_status` raise, i.e. 4xx/5xx), the destination file
state is unchanged: no file is created when none existed and an existing
file keeps its exact content — the write happens only after a successful
`raise_for_status`. -/
theorem download_data_failure_preserves_dest (h : HttpResult)
    (dest : Option String) (hf : fetchFails h = true) :
    (download_data h dest).1 = dest := by
  cases h with
  | transportError msg => rfl
  | response s body =>
    simp only [fetchFails] at hf
    simp [download_data, hf]

/-- C9, witness: a concrete failing fetch (transport error) with an existing
destination file leaves the file exactly as it was. -/
theorem download_data_failure_preserves_dest_witness :
    fetchFails (HttpResult.transportError "unreachable") = true ∧
    (download_data (HttpResult.transportError "unreachable")
      (some "existing bytes")).1 = some "existing bytes" :=
  ⟨by decide,
    download_data_failure_preserves_dest (HttpResult.transportError "unreachable")
      (some "existing bytes") (by decide)⟩

/-! ### Claim C2 — the driver cannot run its stages -/

/-- C2: every invocation of `run_pipeline.main` dies during module import,
before any stage runs: the line `from analyze import analyze` raises
`ImportError` because module `analyze` defines `main`, not `analyze` (the
later `from visualize import plot_full_curve, …` lines would likewise fail:
`visualize` has no `plot_full_curve` or `plot_decade_comparison`).  So the
driver never completes its four stages, even when no stage itself would
error — contradicting the claim. -/
theorem run_pipeline_import_fails :
    resolveImports runPipelineImports
      = Except.error (PyExc.pyImportError "analyze") := by
  decide

/-! ### Claim C3 — missing year/co2 column -/

/-- A raw table none of whose columns matches any keyword: no usable data. -/
def exNoYear : RawTable :=
  { headers := ["Date", "Notes"], rows := [[Cell.num 1, Cell.txt "x"]] }

/-- C3, counterexample: on a concrete input with no year and no co2 column
the cleaner fails with an uncaught `KeyError("year")` (from
`pd.to_numeric(df["year"], …)`), not with the `SchemaError` the claim
names — no `SchemaError` class exists in the code. -/
theorem load_and_clean_no_schemaError :
    load_and_clean exNoYear = Except.error (PyExc.keyError "year") ∧
    load_and_clean exNoYear ≠ Except.error PyExc.schemaError := by
  with_unfolding_all decide

/-- C3, amended: for every raw input whose normalized columns contain no
column named `year` and/or none named `co2`, `load_and_clean` does fail —
cleaning halts, nothing is silently produced — but with an uncaught
`KeyError` for the first missing column among `year`, `month`, `co2` (the
order of the `to_numeric` accesses), not with a `SchemaError`. -/
theorem load_and_clean_missing_key_raises_keyError (t : RawTable)
    (h : "year" ∉ renamedHeaders t ∨ "co2" ∉ renamedHeaders t) :
    ∃ k, (k = "year" ∨ k = "month" ∨ k = "co2") ∧
      load_and_clean t = Except.error (PyExc.keyError k) := by
  by_cases hy : "year" ∈ renamedHeaders t
  · by_cases hm : "month" ∈ renamedHeaders t
    · have hc : "co2" ∉ renamedHeaders t := by
        rcases h with h | h
        · exact absurd hy h
        · exact h
      exact ⟨"co2", Or.inr (Or.inr rfl), by simp [load_and_clean, hy, hm, hc]⟩
    · exact ⟨"month", Or.inr (Or.inl rfl), by simp [load_and_clean, hy, hm]⟩
  · exact ⟨"year", Or.inl rfl, by simp [load_and_clean, hy]⟩

/-- C3, witness: the amended theorem applied to the concrete no-usable-column
table. -/
theorem load_and_clean_missing_key_raises_keyError_witness :
    ∃ k, (k = "year" ∨ k = "month" ∨ k = "co2") ∧
      load_and_clean exNoYear = Except.error (PyExc.keyError k) :=
  load_and_clean_missing_key_raises_keyError exNoYear
    (Or.inl (by with_unfolding_all decide))

/-! ### Claim C4 — how columns are identified -/

/-- C4, counterexample: the claim says identification is case-insensitive
substring matching against the keyword vocabulary, under which a column
named `Years` (which contains the keyword `year`) maps to `year`; the code
maps `yr`/`year`/`mn`/`month`/`co2`/`fit` by exact comparison only, so
`Years` matches nothing and the column is dropped. -/
theorem mapColName_not_spec_substring_matching :
    mapColName "Years" ≠ specColMatch "Years" ∧
    mapColName "Years" = none ∧ specColMatch "Years" = some "year" := by
  with_unfolding_all decide

/-- C4, amended: the cleaner identifies columns case-insensitively over the
fixed vocabulary in first-match-wins source order, but by exact comparison
(after lowercasing and stripping) for `yr`/`year` → `year`, `mn`/`month` →
`month`, `co2` → `co2`, `fit` → `co2_fit`, and by substring only for
`seasonally` → `co2_adjusted`; and the clean output keeps only columns
named by the canonical vocabulary, so every column renamed to nothing and
not literally named canonically is dropped. -/
theorem mapColName_characterisation (col : String) :
    (mapColName col = some "year" ↔
      (trimStr (toLowerStr col) = "yr" ∨ trimStr (toLowerStr col) = "year")) ∧
    (mapColName col = some "month" ↔
      (trimStr (toLowerStr col) = "mn" ∨ trimStr (toLowerStr col) = "month")) ∧
    (mapColName col = some "co2" ↔ trimStr (toLowerStr col) = "co2") ∧
    (mapColName col = some "co2_adjusted" ↔
      (strContains (trimStr (toLowerStr col)) "seasonally" = true ∧
        trimStr (toLowerStr col) ≠ "yr" ∧ trimStr (toLowerStr col) ≠ "year" ∧
        trimStr (toLowerStr col) ≠ "mn" ∧ trimStr (toLowerStr col) ≠ "month" ∧
        trimStr (toLowerStr col) ≠ "co2")) ∧
    (mapColName col = some "co2_fit" ↔
      (trimStr (toLowerStr col) = "fit" ∧
        strContains (trimStr (toLowerStr col)) "seasonally" = false)) ∧
    ∀ t : RawTable, ∀ c ∈ keptHeaders t, c ∈ canonicalCols := by
  have fitNotSeasonally : strContains "fit" "seasonally" = false := by decide
  refine ⟨?_, ?_, ?_, ?_, ?_, fun t c hc => (List.mem_filter.mp hc).1⟩ <;>
  · simp only [mapColName]
    generalize trimStr (toLowerStr col) = l
    split_ifs with h1 h2 h3 h4 h5 <;>
      simp_all [Bool.or_eq_true, decide_eq_true_eq] <;>
      first
      | decide
      | ((rcases h1 with rfl | rfl) <;> decide)
      | ((rcases h2 with rfl | rfl) <;> decide)

/-- C4, witness: the characterisation applied at the concrete column name
`Yr`, and the drop clause applied to the concrete scenario table and its
kept column `year`. -/
theorem mapColName_characterisation_witness :
    (mapColName "Yr" = some "year" ↔
      (trimStr (toLowerStr "Yr") = "yr" ∨ trimStr (toLowerStr "Yr") = "year")) ∧
    "year" ∈ canonicalCols :=
  ⟨(mapColName_characterisation "Yr").1,
    (mapColName_characterisation "Yr").2.2.2.2.2 exScenario "year"
      (by with_unfolding_all decide)⟩

/-! ### Cleaner pipeline lemmas -/

/-- After the `na_values` pass and coercion, no cell carries the sentinel
value: `-99.99` was turned into NaN before any row processing. -/
theorem toNumeric_naValue_ne_sentinel (c : Cell) :
    toNumeric (naValue c) ≠ Cell.num (-9999 / 100) := by
  cases c with
  | na => simp [naValue, toNumeric]
  | num q =>
    by_cases hq : q = -9999 / 100 <;> simp [naValue, hq, toNumeric]
  | txt s =>
    by_cases hs : s = "-99.99" <;> simp [naValue, hs, toNumeric]

/-- Every cell read out of an `na_values`-processed row is either absent
(`na`) or the `naValue` image of a raw cell. -/
theorem getCell_map_naValue (hs : List String) (row : List Cell) (n : String) :
    getCell hs (row.map naValue) n = Cell.na ∨
      ∃ c, getCell hs (row.map naValue) n = naValue c := by
  unfold getCell
  cases hfind : (hs.zip (row.map naValue)).find? (fun hc => hc.1 = n) with
  | none => exact Or.inl rfl
  | some hc =>
    right
    obtain ⟨a, b⟩ := hc
    have hmem := List.mem_of_find?_eq_some hfind
    have hb : b ∈ row.map naValue := (List.of_mem_zip hmem).2
    obtain ⟨c, -, hcc⟩ := List.mem_map.mp hb
    exact ⟨c, hcc ▸ rfl⟩

/-- No surviving row's co2 cell is the sentinel. -/
theorem keptRows_co2_not_sentinel (t : RawTable) (p : PreRec)
    (hp : p ∈ keptRows t) : p.co2 ≠ Cell.num (-9999 / 100) := by
  unfold keptRows at hp
  obtain ⟨hmem, -⟩ := List.mem_filter.mp hp
  obtain ⟨r, -, rfl⟩ := List.mem_map.mp hmem
  show toNumeric (getCell (renamedHeaders t) (r.map naValue) "co2") ≠ _
  rcases getCell_map_naValue (renamedHeaders t) r "co2" with h | ⟨c, h⟩
  · rw [h]; simp [toNumeric]
  · rw [h]; exact toNumeric_naValue_ne_sentinel c

/-- Inversion of a successful per-row date synthesis: the surviving row's
key cells are numeric with exactly the record's values, and the record's
date is the linearised truncated (year, month) with a valid month. -/
theorem mkCleanRec_fields (p : PreRec) (rec : CleanRec)
    (h : mkCleanRec p = Except.ok rec) :
    p.year = Cell.num rec.year ∧ p.month = Cell.num rec.month ∧
    p.co2 = Cell.num rec.co2 ∧
    rec.date = truncInt rec.year * 12 + (truncInt rec.month - 1) ∧
    1 ≤ truncInt rec.month ∧ truncInt rec.month ≤ 12 := by
  rcases hy : p.year with _ | y | sy <;>
    rcases hm : p.month with _ | m | sm <;>
      rcases hc : p.co2 with _ | c | sc <;>
        simp only [mkCleanRec, hy, hm, hc] at h
  all_goals first
  | exact absurd h (by simp)
  | (split_ifs at h with hrange
     injection h with h2
     subst h2
     exact ⟨rfl, rfl, rfl, rfl, hrange.1, hrange.2⟩)

/-- Every record of a successful date synthesis comes from some surviving
row. -/
theorem mkCleanRecs_mem (ps : List PreRec) (rs : List CleanRec)
    (h : mkCleanRecs ps = Except.ok rs) (rec : CleanRec) (hrec : rec ∈ rs) :
    ∃ p ∈ ps, mkCleanRec p = Except.ok rec := by
  induction ps generalizing rs with
  | nil =>
    injection h with h2
    subst h2
    cases hrec
  | cons p ps ih =>
    unfold mkCleanRecs at h
    cases h1 : mkCleanRec p with
    | error e => rw [h1] at h; exact absurd h (by simp)
    | ok r =>
      rw [h1] at h
      cases h2 : mkCleanRecs ps with
      | error e => rw [h2] at h; exact absurd h (by simp)
      | ok rs0 =>
        rw [h2] at h
        injection h with h3
        subst h3
        cases hrec with
        | head => exact ⟨p, List.mem_cons_self p ps, h1⟩
        | tail _ hrec0 =>
          obtain ⟨q, hq, hqr⟩ := ih rs0 h2 hrec0
          exact ⟨q, List.mem_cons_of_mem p hq, hqr⟩

/-- The (year, month) keys of the surviving rows, in order, are exactly the
truncated keys of the synthesised records. -/
theorem mkCleanRecs_keys (ps : List PreRec) (rs : List CleanRec)
    (h : mkCleanRecs ps = Except.ok rs) :
    ps.filterMap rowKey
      = rs.map (fun rec => (truncInt rec.year, truncInt rec.month)) := by
  induction ps generalizing rs with
  | nil =>
    injection h with h2
    subst h2
    rfl
  | cons p ps ih =>
    unfold mkCleanRecs at h
    cases h1 : mkCleanRec p with
    | error e => rw [h1] at h; exact absurd h (by simp)
    | ok r =>
      rw [h1] at h
      cases h2 : mkCleanRecs ps with
      | error e => rw [h2] at h; exact absurd h (by simp)
      | ok rs0 =>
        rw [h2] at h
        injection h with h3
        subst h3
        obtain ⟨hY, hM, -, -, -, -⟩ := mkCleanRec_fields p r h1
        simp [List.filterMap_cons, rowKey, hY, hM, ih rs0 h2]

/-- Inversion of a successful cleaning run: the result is the sorted list of
the synthesised records of the surviving rows, and every surviving row had a
numeric month (otherwise the column-wide `astype(int)` aborts the run). -/
theorem load_and_clean_ok_inv (t : RawTable) (recs : List CleanRec)
    (h : load_and_clean t = Except.ok recs) :
    ∃ recs0, mkCleanRecs (keptRows t) = Except.ok recs0 ∧
      recs = List.insertionSort (fun a b => a.date ≤ b.date) recs0 ∧
      ∀ p ∈ keptRows t, p.month.isNum = true := by
  simp only [load_and_clean] at h
  split_ifs at h with hY hM hC hA
  cases hmk : mkCleanRecs (keptRows t) with
  | error e => rw [hmk] at h; exact absurd h (by simp)
  | ok recs0 =>
    rw [hmk] at h
    injection h with h2
    refine ⟨recs0, rfl, h2.symm, fun p hp => ?_⟩
    have hall : (keptRows t).all (fun p => p.month.isNum) = true :=
      eq_true_of_ne_false hA
    exact List.all_eq_true.mp hall p hp

/-! ### Claim C10 — rows with missing month abort the run -/

/-- C10: the cleaner is not total over rows whose year and co2 are numeric
but whose month is missing (or non-numeric, which coerces to missing): the
`dropna(subset=["year", "co2"])` step does not drop such a row — it
survives into `keptRows` — and the column-wide `month.astype(int)` then
raises, aborting the whole cleaning run instead of skipping the row. -/
theorem load_and_clean_month_nan_aborts (t : RawTable) (r : List Cell)
    (hr : r ∈ t.rows)
    (hy : (preOf t r).year.isNum = true)
    (hco2 : (preOf t r).co2.isNum = true)
    (hm : (preOf t r).month = Cell.na)
    (h1 : "year" ∈ renamedHeaders t)
    (h2 : "month" ∈ renamedHeaders t)
    (h3 : "co2" ∈ renamedHeaders t) :
    preOf t r ∈ keptRows t ∧
    load_and_clean t
      = Except.error (PyExc.valueError "astype: cannot convert NaN to integer") := by
  have hmem : preOf t r ∈ keptRows t := by
    unfold keptRows
    refine List.mem_filter.mpr ⟨List.mem_map_of_mem _ hr, ?_⟩
    rw [hy, hco2]
    rfl
  have hbad : ∃ p ∈ keptRows t, p.month.isNum = false :=
    ⟨preOf t r, hmem, by rw [hm]; rfl⟩
  exact ⟨hmem, by simp [load_and_clean, h1, h2, h3, hbad]⟩

/-- A raw table with one row whose month is missing but whose year and co2
are present. -/
def exMonthNa : RawTable :=
  { headers := ["Yr", "Mn", "CO2"]
    rows := [[Cell.num 1959, Cell.na, Cell.num 315]] }

/-- C10, witness: the theorem applied to the concrete one-row table with a
missing month. -/
theorem load_and_clean_month_nan_aborts_witness :
    preOf exMonthNa [Cell.num 1959, Cell.na, Cell.num 315] ∈ keptRows exMonthNa ∧
    load_and_clean exMonthNa
      = Except.error (PyExc.valueError "astype: cannot convert NaN to integer") :=
  load_and_clean_month_nan_aborts exMonthNa [Cell.num 1959, Cell.na, Cell.num 315]
    (List.Mem.head _)
    (by norm_num +decide [exMonthNa, preOf, mkPreRec, getCell, naValue, toNumeric,
      Cell.isNum, renamedHeaders, trimStr_Yr, trimStr_Mn, trimStr_CO2,
      mapColName_Yr, mapColName_Mn, mapColName_CO2, List.find?, List.zip_cons_cons])
    (by norm_num +decide [exMonthNa, preOf, mkPreRec, getCell, naValue, toNumeric,
      Cell.isNum, renamedHeaders, trimStr_Yr, trimStr_Mn, trimStr_CO2,
      mapColName_Yr, mapColName_Mn, mapColName_CO2, List.find?, List.zip_cons_cons])
    (by norm_num +decide [exMonthNa, preOf, mkPreRec, getCell, naValue, toNumeric,
      Cell.isNum, renamedHeaders, trimStr_Yr, trimStr_Mn, trimStr_CO2,
      mapColName_Yr, mapColName_Mn, mapColName_CO2, List.find?, List.zip_cons_cons])
    (by with_unfolding_all decide)
    (by with_unfolding_all decide)
    (by with_unfolding_all decide)

/-! ### Claim C7 — the sentinel never survives cleaning -/

/-- C7: (universal) every record of a successful cleaning run carries a co2
value different from the raw missing-value sentinel −99.99, because
`read_csv`'s `na_values` turns the sentinel into NaN and `dropna` removes
NaN-co2 rows; and (scenario) the three raw rows (1959, 1, 315.62),
(1959, 2, −99.99), (1959, 3, 317.30) clean to exactly the January and March
records — February is dropped. -/
theorem sentinel_never_survives :
    (∀ (t : RawTable) (recs : List CleanRec),
        load_and_clean t = Except.ok recs →
        ∀ rec ∈ recs, rec.co2 ≠ -9999 / 100) ∧
    load_and_clean exScenario = Except.ok
      [{ date := 23508, year := 1959, month := 1, co2 := 31562 / 100,
         co2_adjusted := Cell.na, co2_fit := Cell.na },
       { date := 23510, year := 1959, month := 3, co2 := 3173 / 10,
         co2_adjusted := Cell.na, co2_fit := Cell.na }] := by
  constructor
  · intro t recs hok rec hrec
    obtain ⟨recs0, hmk, rfl, -⟩ := load_and_clean_ok_inv t recs hok
    have hrec0 : rec ∈ recs0 :=
      (List.perm_insertionSort (fun a b => a.date ≤ b.date) recs0).mem_iff.mp hrec
    obtain ⟨p, hp, hpr⟩ := mkCleanRecs_mem (keptRows t) recs0 hmk rec hrec0
    obtain ⟨-, -, hco2, -, -, -⟩ := mkCleanRec_fields p rec hpr
    intro hq
    exact keptRows_co2_not_sentinel t p hp (by rw [hco2, hq])
  · norm_num +decide [exScenario, load_and_clean, renamedHeaders, trimStr_Yr,
      trimStr_Mn, trimStr_CO2, mapColName_Yr, mapColName_Mn, mapColName_CO2,
      keptRows, preOf, mkPreRec, getCell, naValue, toNumeric, Cell.isNum,
      mkCleanRecs, mkCleanRec, truncInt, List.find?, List.zip_cons_cons,
      List.insertionSort, List.orderedInsert]

/-- C7, witness: the universal part applied to the scenario table and its
January record, with the run's success discharged by the scenario part. -/
theorem sentinel_never_survives_witness :
    ({ date := 23508, year := 1959, month := 1, co2 := 31562 / 100,
       co2_adjusted := Cell.na, co2_fit := Cell.na } : CleanRec).co2
      ≠ -9999 / 100 :=
  sentinel_never_survives.1 exScenario _ sentinel_never_survives.2 _
    (List.Mem.head _)

/-! ### Claim C8 — the clean output is sorted and duplicate-free -/

instance : IsTotal CleanRec (fun a b => a.date ≤ b.date) :=
  ⟨fun a b => Int.le_total a.date b.date⟩

instance : IsTrans CleanRec (fun a b => a.date ≤ b.date) :=
  ⟨fun _ _ _ hab hbc => le_trans hab hbc⟩

/-- C8: for every raw input that cleans successfully and is valid in the
data-model sense — one surviving row per truncated (year, month) key, the
spec's "one row per calendar month" — the clean output's date column is
non-decreasing (ascending sort order) and the (year, month) pairs of the
records are pairwise distinct. -/
theorem clean_output_sorted_nodup (t : RawTable) (recs : List CleanRec)
    (hok : load_and_clean t = Except.ok recs)
    (hvalid : (cleanKeys t).Pairwise (· ≠ ·)) :
    (recs.map CleanRec.date).Sorted (· ≤ ·) ∧
    (recs.map (fun rec => (rec.year, rec.month))).Nodup := by
  obtain ⟨recs0, hmk, rfl, -⟩ := load_and_clean_ok_inv t recs hok
  constructor
  · have hs := List.sorted_insertionSort
      (fun a b : CleanRec => a.date ≤ b.date) recs0
    exact List.pairwise_map.mpr hs
  · have hkeys : cleanKeys t
        = recs0.map (fun rec => (truncInt rec.year, truncInt rec.month)) :=
      mkCleanRecs_keys (keptRows t) recs0 hmk
    rw [hkeys] at hvalid
    have h0 : recs0.Pairwise (fun a b =>
        (truncInt a.year, truncInt a.month) ≠ (truncInt b.year, truncInt b.month)) :=
      List.pairwise_map.mp hvalid
    have hperm : (List.insertionSort (fun a b => a.date ≤ b.date) recs0).Perm recs0 :=
      List.perm_insertionSort (fun a b => a.date ≤ b.date) recs0
    have h1 := (hperm.pairwise_iff (fun hab => Ne.symm hab)).mpr h0
    refine List.pairwise_map.mpr (h1.imp ?_)
    intro a b hab heq
    apply hab
    have hy : a.year = b.year := congrArg Prod.fst heq
    have hm : a.month = b.month := congrArg Prod.snd heq
    rw [hy, hm]

/-- A raw table whose two rows arrive in reverse chronological order. -/
def exTwoRows : RawTable :=
  { headers := ["Yr", "Mn", "CO2"]
    rows := [[Cell.num 1970, Cell.num 2, Cell.num 325],
             [Cell.num 1970, Cell.num 1, Cell.num 324]] }

/-- The clean records of `exTwoRows`, in sorted order. -/
def exTwoRowsClean : List CleanRec :=
  [{ date := 23640, year := 1970, month := 1, co2 := 324,
     co2_adjusted := Cell.na, co2_fit := Cell.na },
   { date := 23641, year := 1970, month := 2, co2 := 325,
     co2_adjusted := Cell.na, co2_fit := Cell.na }]

/-- C8, witness: the theorem applied to the concrete two-row table. -/
theorem clean_output_sorted_nodup_witness :
    (exTwoRowsClean.map CleanRec.date).Sorted (· ≤ ·) ∧
    (exTwoRowsClean.map (fun rec => (rec.year, rec.month))).Nodup :=
  clean_output_sorted_nodup exTwoRows exTwoRowsClean
    (by norm_num +decide [exTwoRows, exTwoRowsClean, load_and_clean,
      renamedHeaders, trimStr_Yr, trimStr_Mn, trimStr_CO2, mapColName_Yr,
      mapColName_Mn, mapColName_CO2, keptRows, preOf, mkPreRec, getCell,
      naValue, toNumeric, Cell.isNum, mkCleanRecs, mkCleanRec, truncInt,
      List.find?, List.zip_cons_cons, List.insertionSort, List.orderedInsert])
    (by norm_num +decide [exTwoRows, cleanKeys, keptRows, preOf, mkPreRec,
      getCell, naValue, toNumeric, Cell.isNum, rowKey, truncInt,
      renamedHeaders, trimStr_Yr, trimStr_Mn, trimStr_CO2, mapColName_Yr,
      mapColName_Mn, mapColName_CO2, List.find?, List.zip_cons_cons,
      List.filterMap])

/-! ### Analyzer lemmas -/

/-- The row default used for positional access into the annual table. -/
def dummyAnnual : AnnualRow :=
  { year := 0, co2 := 0, growth_rate := none, acceleration := none,
    growth_rate_smooth := none, acceleration_smooth := none }

/-- Positional access into `(List.range n).map f`, inside the range. -/
theorem getD_map_range_lt {α : Type} (n : ℕ) (f : ℕ → α) (d : α) (i : ℕ)
    (h : i < n) : ((List.range n).map f).getD i d = f i := by
  rw [List.getD_eq_getElem?_getD, List.getElem?_map, List.getElem?_range h]
  rfl

/-- Positional access into `(List.range n).map f`, outside the range. -/
theorem getD_map_range_ge {α : Type} (n : ℕ) (f : ℕ → α) (d : α) (i : ℕ)
    (h : n ≤ i) : ((List.range n).map f).getD i d = d := by
  rw [List.getD_eq_getElem?_getD, List.getElem?_map,
    List.getElem?_eq_none (by simpa using h)]
  rfl

theorem calculate_growth_rate_length (rows : List (ℤ × ℚ)) :
    (calculate_growth_rate rows).length = (annualTable rows).length := by
  simp [calculate_growth_rate]

theorem annualTable_length (rows : List (ℤ × ℚ)) :
    (annualTable rows).length = (sortedYears rows).length := by
  simp [annualTable]

/-- The annual row at position `i`, in terms of the column lists. -/
theorem calculate_growth_rate_getD (rows : List (ℤ × ℚ)) (i : ℕ)
    (h : i < (annualTable rows).length) :
    (calculate_growth_rate rows).getD i dummyAnnual =
      { year := ((annualTable rows).getD i (0, 0)).1
        co2 := ((annualTable rows).getD i (0, 0)).2
        growth_rate := (grList rows).getD i none
        acceleration := (accList rows).getD i none
        growth_rate_smooth := (grSmoothList rows).getD i none
        acceleration_smooth := (accSmoothList rows).getD i none } := by
  unfold calculate_growth_rate
  exact getD_map_range_lt _ _ _ i h

/-- The year at position `i` of the annual table. -/
theorem annualTable_year_getD (rows : List (ℤ × ℚ)) (i : ℕ)
    (h : i < (annualTable rows).length) :
    ((annualTable rows).getD i (0, 0)).1 = (sortedYears rows).getD i 0 := by
  have hi : i < (sortedYears rows).length := by rwa [annualTable_length] at h
  unfold annualTable
  rw [List.getD_eq_getElem?_getD, List.getElem?_map, List.getElem?_eq_getElem hi,
    List.getD_eq_getElem?_getD, List.getElem?_eq_getElem hi]
  rfl

/-- The mean at position `i` of the annual table is the year's mean. -/
theorem annualTable_co2_getD (rows : List (ℤ × ℚ)) (i : ℕ)
    (h : i < (annualTable rows).length) :
    ((annualTable rows).getD i (0, 0)).2
      = yearMean rows ((sortedYears rows).getD i 0) := by
  have hi : i < (sortedYears rows).length := by rwa [annualTable_length] at h
  unfold annualTable
  rw [List.getD_eq_getElem?_getD, List.getElem?_map, List.getElem?_eq_getElem hi,
    List.getD_eq_getElem?_getD, List.getElem?_eq_getElem hi]
  rfl

/-- The co2 column of the annual table, positionally. -/
theorem annual_co2_col_getD (rows : List (ℤ × ℚ)) (i : ℕ)
    (h : i < (annualTable rows).length) :
    ((annualTable rows).map Prod.snd).getD i 0
      = yearMean rows ((sortedYears rows).getD i 0) := by
  rw [List.getD_eq_getElem?_getD, List.getElem?_map, List.getElem?_eq_getElem h]
  have := annualTable_co2_getD rows i h
  rwa [List.getD_eq_getElem?_getD, List.getElem?_eq_getElem h] at this

theorem grList_length (rows : List (ℤ × ℚ)) :
    (grList rows).length = (annualTable rows).length := by
  simp [grList, diffSeries]

theorem accList_length (rows : List (ℤ × ℚ)) :
    (accList rows).length = (annualTable rows).length := by
  simp [accList, diffSeriesO, grList_length, grList, diffSeries]

/-- `growth_rate` is NaN at position 0 and off the end. -/
theorem grList_getD_zero_or_ge (rows : List (ℤ × ℚ)) (i : ℕ)
    (h : i = 0 ∨ (annualTable rows).length ≤ i) :
    (grList rows).getD i none = none := by
  unfold grList diffSeries
  rcases h with rfl | h
  · rcases Nat.eq_zero_or_pos ((annualTable rows).map Prod.snd).length with h0 | h0
    · rw [getD_map_range_ge _ _ _ _ (by omega)]
    · rw [getD_map_range_lt _ _ _ _ h0]
      simp
  · rw [getD_map_range_ge]
    simpa using h

/-- `growth_rate` at position `i ≥ 1` is the difference of consecutive
annual means. -/
theorem grList_getD_pos (rows : List (ℤ × ℚ)) (i : ℕ) (h1 : 1 ≤ i)
    (h2 : i < (annualTable rows).length) :
    (grList rows).getD i none
      = some (yearMean rows ((sortedYears rows).getD i 0)
          - yearMean rows ((sortedYears rows).getD (i - 1) 0)) := by
  unfold grList diffSeries
  rw [getD_map_range_lt _ _ _ _ (by simpa using h2)]
  rw [if_neg (by omega)]
  rw [annual_co2_col_getD rows i h2, annual_co2_col_getD rows (i - 1) (by omega)]

/-- `acceleration` is NaN at positions 0 and 1 and off the end. -/
theorem accList_getD_lt_two_or_ge (rows : List (ℤ × ℚ)) (i : ℕ)
    (h : i < 2 ∨ (annualTable rows).length ≤ i) :
    (accList rows).getD i none = none := by
  unfold accList diffSeriesO
  have hlen : (grList rows).length = (annualTable rows).length :=
    grList_length rows
  rcases Nat.lt_or_ge i (annualTable rows).length with hin | hout
  · rw [getD_map_range_lt _ _ _ _ (by omega)]
    rcases Nat.eq_zero_or_pos i with rfl | hpos
    · simp
    · have hi1 : i = 1 := by omega
      subst hi1
      rw [if_neg (by omega)]
      rw [grList_getD_zero_or_ge rows 0 (Or.inl rfl)]
  · rw [getD_map_range_ge _ _ _ _ (by omega)]

/-- `acceleration` at position `i ≥ 2` is the difference of consecutive
growth rates (both defined there). -/
theorem accList_getD_pos (rows : List (ℤ × ℚ)) (i : ℕ) (h1 : 2 ≤ i)
    (h2 : i < (annualTable rows).length) :
    ∃ g g', (grList rows).getD (i - 1) none = some g' ∧
      (grList rows).getD i none = some g ∧
      (accList rows).getD i none = some (g - g') := by
  have hgi := grList_getD_pos rows i (by omega) h2
  have hgi1 := grList_getD_pos rows (i - 1) (by omega) (by omega)
  refine ⟨_, _, hgi1, hgi, ?_⟩
  unfold accList diffSeriesO
  rw [getD_map_range_lt _ _ _ _ (by rw [grList_length]; omega)]
  rw [if_neg (by omega), hgi1, hgi]

/-! ### Claim C5 — growth rate and acceleration formulas -/

/-- Monthly records with no year 1961: the annual table has a gap. -/
def exGapYears : List (ℤ × ℚ) := [(1960, 316), (1962, 319)]

/-- C5, counterexample: with years {1960, 1962} present and 1961 absent,
the code's `diff()` gives year 1962 the growth rate 319 − 316 = 3 (the
difference with the previous *row*, 1960), while the claim's formula
mean(co2 | 1962) − mean(co2 | 1961) is undefined because year 1961 has no
records — so growth_rate(Y) does not equal mean(Y) − mean(Y−1) on every
clean record set. -/
theorem growth_rate_gap_counterexample :
    ((calculate_growth_rate exGapYears).getD 1 dummyAnnual).year = 1962 ∧
    ((calculate_growth_rate exGapYears).getD 1 dummyAnnual).growth_rate
      = some 3 ∧
    specGrowthRate exGapYears 1962 = none := by
  refine ⟨?_, ?_, ?_⟩ <;> with_unfolding_all decide

/-- The distinct years of the record set are consecutive (no gap years) —
the regime in which the spec's formula describes `diff()`. -/
def YearsConsecutive (rows : List (ℤ × ℚ)) : Prop :=
  ∀ i, i + 1 < (sortedYears rows).length →
    (sortedYears rows).getD (i + 1) 0 = (sortedYears rows).getD i 0 + 1

/-- C5, amended: on every clean record set whose distinct years are
consecutive, the annual growth rate of the row for year Y equals
mean(co2 | year=Y) − mean(co2 | year=Y−1) and is undefined (NaN) for the
first year; the acceleration equals growth_rate(Y) − growth_rate(Y−1) and
is undefined for the first two years.  (Without the consecutiveness
hypothesis, `diff()` differences consecutive rows, not consecutive
years.) -/
theorem calculate_growth_rate_formulas (rows : List (ℤ × ℚ))
    (hc : YearsConsecutive rows) :
    (0 < (calculate_growth_rate rows).length →
      ((calculate_growth_rate rows).getD 0 dummyAnnual).growth_rate = none ∧
      ((calculate_growth_rate rows).getD 0 dummyAnnual).acceleration = none) ∧
    (1 < (calculate_growth_rate rows).length →
      ((calculate_growth_rate rows).getD 1 dummyAnnual).acceleration = none) ∧
    (∀ i, 1 ≤ i → i < (calculate_growth_rate rows).length →
      ((calculate_growth_rate rows).getD i dummyAnnual).growth_rate
        = some (yearMean rows
              (((calculate_growth_rate rows).getD i dummyAnnual).year)
            - yearMean rows
              (((calculate_growth_rate rows).getD i dummyAnnual).year - 1))) ∧
    (∀ i, 2 ≤ i → i < (calculate_growth_rate rows).length →
      ∃ g g',
        ((calculate_growth_rate rows).getD (i - 1) dummyAnnual).growth_rate
          = some g' ∧
        ((calculate_growth_rate rows).getD i dummyAnnual).growth_rate
          = some g ∧
        ((calculate_growth_rate rows).getD i dummyAnnual).acceleration
          = some (g - g')) := by
  have hlen := calculate_growth_rate_length rows
  refine ⟨?_, ?_, ?_, ?_⟩
  · intro h0
    rw [calculate_growth_rate_getD rows 0 (by omega)]
    exact ⟨grList_getD_zero_or_ge rows 0 (Or.inl rfl),
      accList_getD_lt_two_or_ge rows 0 (Or.inl (by omega))⟩
  · intro h1
    rw [calculate_growth_rate_getD rows 1 (by omega)]
    exact accList_getD_lt_two_or_ge rows 1 (Or.inl (by omega))
  · intro i hi1 hin
    have hin' : i < (annualTable rows).length := by omega
    rw [calculate_growth_rate_getD rows i hin']
    have hyear := annualTable_year_getD rows i hin'
    have hprev : (sortedYears rows).getD (i - 1) 0
        = (sortedYears rows).getD i 0 - 1 := by
      have hc' := hc (i - 1) (by
        rw [← annualTable_length]
        omega)
      rw [show i - 1 + 1 = i by omega] at hc'
      omega
    show (grList rows).getD i none = _
    rw [grList_getD_pos rows i hi1 hin', hyear, hprev]
  · intro i hi2 hin
    have hin' : i < (annualTable rows).length := by omega
    obtain ⟨g, g', hg1, hg2, hg3⟩ := accList_getD_pos rows i hi2 hin'
    refine ⟨g, g', ?_, ?_, ?_⟩
    · rw [calculate_growth_rate_getD rows (i - 1) (by omega)]
      exact hg1
    · rw [calculate_growth_rate_getD rows i hin']
      exact hg2
    · rw [calculate_growth_rate_getD rows i hin']
      exact hg3

/-- C5, witness: the amended theorem applied to the scenario record set with
annual means {1960: 316, 1961: 317, 1962: 319}, at the 1962 row. -/
theorem calculate_growth_rate_formulas_witness :
    ((calculate_growth_rate exMonthly).getD 2 dummyAnnual).growth_rate
      = some (yearMean exMonthly
            (((calculate_growth_rate exMonthly).getD 2 dummyAnnual).year)
          - yearMean exMonthly
            (((calculate_growth_rate exMonthly).getD 2 dummyAnnual).year - 1)) :=
  (calculate_growth_rate_formulas exMonthly
    (by
      intro i hi
      have hl : (sortedYears exMonthly).length = 3 := by
        with_unfolding_all decide
      rw [hl] at hi
      have h2 : i < 2 := by omega
      interval_cases i <;> with_unfolding_all decide)).2.2.1 2 (by omega)
    (by with_unfolding_all decide)

/-! ### Claim C6 — the smoothed columns -/

/-- A rolling-mean position whose centered window fits and holds five
defined values is their mean. -/
theorem rollingMean5_getD_some {xs : List (Option ℚ)} {i : ℕ} {a b c d e : ℚ}
    (hw : 2 ≤ i ∧ i + 2 < xs.length)
    (h1 : xs.getD (i - 2) none = some a) (h2 : xs.getD (i - 1) none = some b)
    (h3 : xs.getD i none = some c) (h4 : xs.getD (i + 1) none = some d)
    (h5 : xs.getD (i + 2) none = some e) :
    (rollingMean5 xs).getD i none = some ((a + b + c + d + e) / 5) := by
  unfold rollingMean5
  rw [getD_map_range_lt _ _ _ _ (by omega), if_pos hw, h1, h2, h3, h4, h5]

/-- A rolling-mean position whose centered window does not fit inside the
series is NaN. -/
theorem rollingMean5_getD_none_out {xs : List (Option ℚ)} {i : ℕ}
    (h : ¬(2 ≤ i ∧ i + 2 < xs.length)) :
    (rollingMean5 xs).getD i none = none := by
  unfold rollingMean5
  rcases Nat.lt_or_ge i xs.length with hin | hout
  · rw [getD_map_range_lt _ _ _ _ hin, if_neg h]
  · rw [getD_map_range_ge _ _ _ _ hout]

/-- A rolling-mean position whose window starts on a NaN entry is NaN
(fewer than `min_periods = 5` observations). -/
theorem rollingMean5_getD_none_na {xs : List (Option ℚ)} {i : ℕ}
    (hw : 2 ≤ i ∧ i + 2 < xs.length)
    (hna : xs.getD (i - 2) none = none) :
    (rollingMean5 xs).getD i none = none := by
  unfold rollingMean5
  rw [getD_map_range_lt _ _ _ _ (by omega), if_pos hw, hna]

/-- Annual means over seven consecutive years. -/
def exSeven : List (ℤ × ℚ) :=
  [(1960, 310), (1961, 311), (1962, 313), (1963, 316), (1964, 320),
   (1965, 325), (1966, 331)]

set_option maxHeartbeats 2000000 in
/-- C6, counterexample: on seven consecutive years the annual index 2 is not
within 2 years of either end — per the claim both smoothed columns should
be defined there — yet `growth_rate_smooth` is NaN at index 2, because its
5-window covers `growth_rate[0]`, the NaN head of `diff()`, and
`rolling(5).mean()` with `min_periods = 5` yields NaN for any window
containing a NaN. -/
theorem growth_smooth_edge_counterexample :
    (calculate_growth_rate exSeven).length = 7 ∧
    ((calculate_growth_rate exSeven).getD 2 dummyAnnual).growth_rate_smooth
      = none := by
  constructor <;> with_unfolding_all decide

set_option maxHeartbeats 2000000 in
/-- C6, amended: the smoothed columns are the 5-year centered moving
averages of the growth-rate and acceleration series, but they are defined
exactly at indices at least 2 from the end of the series and at least 3
(growth rate) or 4 (acceleration) from its start — the first windows also
cover the NaN head entries that `diff()` leaves at indices 0 (growth rate)
and 0–1 (acceleration), not only the 2-of-either-end edge the claim
states. -/
theorem smooth_columns_characterisation (rows : List (ℤ × ℚ)) :
    (∀ i, i < (calculate_growth_rate rows).length →
      (¬(3 ≤ i ∧ i + 2 < (calculate_growth_rate rows).length) →
        ((calculate_growth_rate rows).getD i dummyAnnual).growth_rate_smooth
          = none) ∧
      (3 ≤ i ∧ i + 2 < (calculate_growth_rate rows).length →
        ∃ a b c d e,
          (grList rows).getD (i - 2) none = some a ∧
          (grList rows).getD (i - 1) none = some b ∧
          (grList rows).getD i none = some c ∧
          (grList rows).getD (i + 1) none = some d ∧
          (grList rows).getD (i + 2) none = some e ∧
          ((calculate_growth_rate rows).getD i dummyAnnual).growth_rate_smooth
            = some ((a + b + c + d + e) / 5))) ∧
    (∀ i, i < (calculate_growth_rate rows).length →
      (¬(4 ≤ i ∧ i + 2 < (calculate_growth_rate rows).length) →
        ((calculate_growth_rate rows).getD i dummyAnnual).acceleration_smooth
          = none) ∧
      (4 ≤ i ∧ i + 2 < (calculate_growth_rate rows).length →
        ∃ a b c d e,
          (accList rows).getD (i - 2) none = some a ∧
          (accList rows).getD (i - 1) none = some b ∧
          (accList rows).getD i none = some c ∧
          (accList rows).getD (i + 1) none = some d ∧
          (accList rows).getD (i + 2) none = some e ∧
          ((calculate_growth_rate rows).getD i dummyAnnual).acceleration_smooth
            = some ((a + b + c + d + e) / 5))) := by
  have hlen := calculate_growth_rate_length rows
  have hgrlen := grList_length rows
  have hacclen := accList_length rows
  constructor
  · intro i hi
    have hi' : i < (annualTable rows).length := by omega
    rw [calculate_growth_rate_getD rows i hi']
    constructor
    · intro hnot
      show (grSmoothList rows).getD i none = none
      unfold grSmoothList
      by_cases hw : 2 ≤ i ∧ i + 2 < (grList rows).length
      · have hi2 : i = 2 := by omega
        subst hi2
        exact rollingMean5_getD_none_na hw
          (grList_getD_zero_or_ge rows 0 (Or.inl rfl))
      · exact rollingMean5_getD_none_out hw
    · rintro ⟨h3, h2e⟩
      have e1 := grList_getD_pos rows (i - 2) (by omega) (by omega)
      have e2 := grList_getD_pos rows (i - 1) (by omega) (by omega)
      have e3 := grList_getD_pos rows i (by omega) (by omega)
      have e4 := grList_getD_pos rows (i + 1) (by omega) (by omega)
      have e5 := grList_getD_pos rows (i + 2) (by omega) (by omega)
      refine ⟨_, _, _, _, _, e1, e2, e3, e4, e5, ?_⟩
      show (grSmoothList rows).getD i none = _
      unfold grSmoothList
      exact rollingMean5_getD_some ⟨by omega, by omega⟩ e1 e2 e3 e4 e5
  · intro i hi
    have hi' : i < (annualTable rows).length := by omega
    rw [calculate_growth_rate_getD rows i hi']
    constructor
    · intro hnot
      show (accSmoothList rows).getD i none = none
      unfold accSmoothList
      by_cases hw : 2 ≤ i ∧ i + 2 < (accList rows).length
      · have hi2 : i - 2 < 2 := by omega
        exact rollingMean5_getD_none_na hw
          (accList_getD_lt_two_or_ge rows (i - 2) (Or.inl hi2))
      · exact rollingMean5_getD_none_out hw
    · rintro ⟨h4, h2e⟩
      obtain ⟨g1, g1', hg11, hg12, e1⟩ :=
        accList_getD_pos rows (i - 2) (by omega) (by omega)
      obtain ⟨g2, g2', hg21, hg22, e2⟩ :=
        accList_getD_pos rows (i - 1) (by omega) (by omega)
      obtain ⟨g3, g3', hg31, hg32, e3⟩ :=
        accList_getD_pos rows i (by omega) (by omega)
      obtain ⟨g4, g4', hg41, hg42, e4⟩ :=
        accList_getD_pos rows (i + 1) (by omega) (by omega)
      obtain ⟨g5, g5', hg51, hg52, e5⟩ :=
        accList_getD_pos rows (i + 2) (by omega) (by omega)
      refine ⟨_, _, _, _, _, e1, e2, e3, e4, e5, ?_⟩
      show (accSmoothList rows).getD i none = _
      unfold accSmoothList
      exact rollingMean5_getD_some ⟨by omega, by omega⟩ e1 e2 e3 e4 e5

set_option maxHeartbeats 2000000 in
/-- C6, witness: the characterisation applied to the seven-year table at
index 2, where the growth-rate window still covers the NaN head. -/
theorem smooth_columns_characterisation_witness :
    ((calculate_growth_rate exSeven).getD 2 dummyAnnual).growth_rate_smooth
      = none :=
  ((smooth_columns_characterisation exSeven).1 2
    (by with_unfolding_all decide)).1 (by omega)
